import Mathlib

/-!
Verification of the threshold-triggered BCI robot control scripts
(`brainflow_robot_control.py` and `emotiv_control.py`).

Scores, speeds and thresholds are modelled as rationals; the external
calls (board polling, the scoring pipeline, the WebRTC publishes, the
teardown calls) are modelled by explicit outcome parameters, and the
observable effect of a run is the list of commands published on the
robot connection together with the list of attempted teardown steps.
-/

namespace Go2BCI

/-- A command published on the data channel of the robot: either the
MOTION_SWITCHER mode request issued during setup, or a SPORT_MOD Move
request with velocity parameters (x, y, z).  The "stop" command of the
source is the Move request with all-zero velocity. -/
inductive Dispatch where
  | setMode (mode : String)
  | move (x y z : ℚ)
deriving DecidableEq, Repr

/-- The `RobotConfig` of both scripts (the connection fields are opaque
to the control logic and omitted). -/
structure RobotConfig where
  move_speed : ℚ := 1/2
  move_duration : ℚ := 2
deriving DecidableEq, Repr

/-- Function `move_forward` of both scripts: publish a Move request with
`x = move_speed`, wait `move_duration`, then publish the zero-velocity
Move request.  In the error-free case it dispatches exactly this pair. -/
def move_forward (rcfg : RobotConfig) : List Dispatch :=
  [Dispatch.move rcfg.move_speed 0 0, Dispatch.move 0 0 0]

namespace Brainflow

/-- The `BCIConfig` of `brainflow_robot_control.py` (board identifiers and
ports are opaque to the control logic and omitted). -/
structure BCIConfig where
  command_threshold : ℚ := 1/2
  window_size : ℕ := 256
  sampling_rate : ℕ := 250
deriving DecidableEq, Repr

/-- Function `process_brain_data`: the whole filtering/band-power/predict
pipeline runs inside a `try`; its outcome is modelled as
`Except Unit ℚ`.  On success the concentration score is returned, and
any error in the pipeline is caught and `0.0` returned. -/
def process_brain_data (scoring : Except Unit ℚ) : ℚ :=
  match scoring with
  | Except.ok concentration_score => concentration_score
  | Except.error _ => 0

/-- Outcome of one `get_current_board_data` call in the loop:
an empty window (`data.size == 0`), a nonempty window whose scoring
pipeline has the given outcome, or the poll call itself raising. -/
inductive PollResult where
  | empty
  | window (scoring : Except Unit ℚ)
  | pollError
deriving Repr

/-- Commands dispatched by one iteration of the `while self.running`
body for a given poll outcome: an empty window dispatches nothing;
a nonempty window is scored by `process_brain_data` and, when the
score reaches `command_threshold`, `move_forward` runs.  (A raising
poll dispatches nothing in its own iteration; it aborts the loop,
which `run_loop` accounts for.) -/
def cycle_dispatches (cfg : BCIConfig) (rcfg : RobotConfig) (p : PollResult) :
    List Dispatch :=
  match p with
  | PollResult.empty => []
  | PollResult.pollError => []
  | PollResult.window scoring =>
    if cfg.command_threshold ≤ process_brain_data scoring then move_forward rcfg
    else []

/-- The `while self.running` loop of `run`, driven by the successive
poll outcomes (the list ends when the loop is stopped externally).
Returns the dispatched commands and whether the loop was aborted by an
exception escaping to the handler in `run` (a raising poll call). -/
def run_loop (cfg : BCIConfig) (rcfg : RobotConfig) :
    List PollResult → List Dispatch × Bool
  | [] => ([], false)
  | PollResult.pollError :: _ => ([], true)
  | PollResult.empty :: ps => run_loop cfg rcfg ps
  | PollResult.window scoring :: ps =>
    let rest := run_loop cfg rcfg ps
    (cycle_dispatches cfg rcfg (PollResult.window scoring) ++ rest.1, rest.2)

/-- The controller attributes that guard cleanup: whether
`self.board`, `self.concentration_model` and `self.robot_conn` are
set, and the `self.running` flag. -/
structure ControllerState where
  board : Bool
  concentration_model : Bool
  robot_conn : Bool
  running : Bool
deriving DecidableEq, Repr, Fintype

/-- Which of the four underlying teardown calls raise when invoked. -/
structure CleanupEnv where
  stop_stream_fails : Bool
  release_session_fails : Bool
  model_release_fails : Bool
  disconnect_fails : Bool
deriving DecidableEq, Repr, Fintype

/-- The four teardown calls of `cleanup`, in source order:
`board.stop_stream()`, `board.release_session()`,
`concentration_model.release()`, `robot_conn.disconnect()`. -/
inductive CleanupStep where
  | stop_stream
  | release_session
  | model_release
  | disconnect
deriving DecidableEq, Repr

/-- Result of a `cleanup` call: the teardown calls attempted in order
(a raising call counts as attempted), whether an exception escaped
`cleanup` to its caller, and the controller state afterwards. -/
structure CleanupResult where
  steps : List CleanupStep
  raised : Bool
  state : ControllerState
deriving DecidableEq, Repr

/-- Method `cleanup`: sets `running = False`, then runs the guarded teardown
calls in source order with no exception handling — a raising call
propagates immediately, skipping everything after it.  The handle
attributes are never reset to `None`. -/
def cleanup (env : CleanupEnv) (st : ControllerState) : CleanupResult :=
  let st1 : ControllerState := { st with running := false }
  if st1.board ∧ env.stop_stream_fails then
    ⟨[CleanupStep.stop_stream], true, st1⟩
  else if st1.board ∧ env.release_session_fails then
    ⟨[CleanupStep.stop_stream, CleanupStep.release_session], true, st1⟩
  else
    let boardSteps :=
      if st1.board then [CleanupStep.stop_stream, CleanupStep.release_session] else []
    if st1.concentration_model ∧ env.model_release_fails then
      ⟨boardSteps ++ [CleanupStep.model_release], true, st1⟩
    else
      let modelSteps := if st1.concentration_model then [CleanupStep.model_release] else []
      if st1.robot_conn ∧ env.disconnect_fails then
        ⟨boardSteps ++ modelSteps ++ [CleanupStep.disconnect], true, st1⟩
      else
        let connSteps := if st1.robot_conn then [CleanupStep.disconnect] else []
        ⟨boardSteps ++ modelSteps ++ connSteps, false, st1⟩

/-- Whether a given teardown call raises in the given environment. -/
def step_fails (env : CleanupEnv) : CleanupStep → Bool
  | CleanupStep.stop_stream => env.stop_stream_fails
  | CleanupStep.release_session => env.release_session_fails
  | CleanupStep.model_release => env.model_release_fails
  | CleanupStep.disconnect => env.disconnect_fails

/-- The teardown calls `cleanup` would reach for a given state, in
source order, ignoring failures. -/
def applicable_steps (st : ControllerState) : List CleanupStep :=
  (if st.board then [CleanupStep.stop_stream, CleanupStep.release_session] else []) ++
  (if st.concentration_model then [CleanupStep.model_release] else []) ++
  (if st.robot_conn then [CleanupStep.disconnect] else [])

/-- Which of the fallible calls of `setup_bci` raise:
`board.prepare_session()`, `board.start_stream()`,
`concentration_model.prepare()`. -/
structure BciEnv where
  prepare_session_fails : Bool
  start_stream_fails : Bool
  model_prepare_fails : Bool
deriving DecidableEq, Repr

/-- Method `setup_bci`: constructs `self.board` (setting the attribute), then
prepares the session and starts streaming; constructs
`self.concentration_model` and prepares it.  The `except` clause logs
and re-raises, so a failing call leaves the attributes set so far and
propagates (`Bool` result = raised). -/
def setup_bci (env : BciEnv) (st : ControllerState) : ControllerState × Bool :=
  let st1 : ControllerState := { st with board := true }
  if env.prepare_session_fails then (st1, true)
  else if env.start_stream_fails then (st1, true)
  else
    let st2 : ControllerState := { st1 with concentration_model := true }
    if env.model_prepare_fails then (st2, true)
    else (st2, false)

/-- Which of the fallible calls of `setup_robot` raise:
`robot_conn.connect()` and the MOTION_SWITCHER publish of
`_set_motion_mode`. -/
structure RobotEnv where
  connect_fails : Bool
  set_mode_fails : Bool
deriving DecidableEq, Repr

/-- Method `setup_robot`: constructs `self.robot_conn` (setting the
attribute), connects, then `_set_motion_mode("normal")` publishes the
mode request.  The `except` clause logs and re-raises.  Returns the
state, the commands dispatched, and whether it raised. -/
def setup_robot (env : RobotEnv) (st : ControllerState) :
    ControllerState × List Dispatch × Bool :=
  let st1 : ControllerState := { st with robot_conn := true }
  if env.connect_fails then (st1, [], true)
  else if env.set_mode_fails then (st1, [], true)
  else (st1, [Dispatch.setMode "normal"], false)

/-- How a `run` call terminates for its caller: an ordinary return,
a propagating `KeyboardInterrupt`, or a propagating `Exception`. -/
inductive RunExit where
  | normal
  | keyboard
  | error
deriving DecidableEq, Repr

/-- The external behavior of one run: the setup call outcomes, the poll
outcomes the loop sees, whether a `KeyboardInterrupt` arrives at a
suspension point once the polls are exhausted, and the teardown call
outcomes. -/
structure RunEnv where
  bci : BciEnv
  robot : RobotEnv
  polls : List PollResult
  interrupt : Bool
  cleanupEnv : CleanupEnv
deriving Repr

/-- Observable result of `run` (and of `main`): commands dispatched,
how many times `cleanup` was invoked, the teardown calls attempted by
the first `cleanup` invocation, the exit kind, and the controller
state left behind. -/
structure RunResult where
  dispatches : List Dispatch
  cleanup_calls : ℕ
  first_cleanup_steps : List CleanupStep
  exit : RunExit
  state : ControllerState
deriving Repr

/-- Method `run`: `try` setup_bci, setup_robot, set `running`, loop;
`except Exception` logs and absorbs; `finally` awaits `cleanup`.
A `KeyboardInterrupt` is not an `Exception`, so it propagates after
the `finally`; an exception escaping `cleanup` itself propagates from
`run`. -/
def run (cfg : BCIConfig) (rcfg : RobotConfig) (env : RunEnv)
    (st : ControllerState) : RunResult :=
  let sb := setup_bci env.bci st
  if sb.2 then
    let c := cleanup env.cleanupEnv sb.1
    ⟨[], 1, c.steps, if c.raised then RunExit.error else RunExit.normal, c.state⟩
  else
    let sr := setup_robot env.robot sb.1
    if sr.2.2 then
      let c := cleanup env.cleanupEnv sr.1
      ⟨sr.2.1, 1, c.steps, if c.raised then RunExit.error else RunExit.normal, c.state⟩
    else
      let st3 : ControllerState := { sr.1 with running := true }
      let lp := run_loop cfg rcfg env.polls
      let c := cleanup env.cleanupEnv st3
      let ex := if c.raised then RunExit.error
                else if env.interrupt then RunExit.keyboard
                else RunExit.normal
      ⟨sr.2.1 ++ lp.1, 1, c.steps, ex, c.state⟩

/-- The `BCIConfig` constructed in `main`
(`command_threshold=0.6`, defaults elsewhere). -/
def main_bci_config : BCIConfig :=
  { command_threshold := 6/10, window_size := 256, sampling_rate := 250 }

/-- The `RobotConfig` constructed in `main`
(`move_speed=0.5`, `move_duration=2.0`). -/
def main_robot_config : RobotConfig := { move_speed := 1/2, move_duration := 2 }

/-- The freshly constructed controller: no board, no model, no robot
connection, not running. -/
def initial_state : ControllerState := ⟨false, false, false, false⟩

/-- Function `main`: constructs the controller, `try` awaits `controller.run()`,
`except KeyboardInterrupt` prints and absorbs, `finally` awaits
`controller.cleanup()` a further time.  An `Exception` escaping `run`
(or the final `cleanup`) propagates out of `main`. -/
def main (env : RunEnv) : RunResult :=
  let r := run main_bci_config main_robot_config env initial_state
  let c := cleanup env.cleanupEnv r.state
  { dispatches := r.dispatches
    cleanup_calls := r.cleanup_calls + 1
    first_cleanup_steps := r.first_cleanup_steps
    exit :=
      if r.exit = RunExit.error then RunExit.error
      else if c.raised then RunExit.error
      else RunExit.normal
    state := c.state }

end Brainflow

namespace Emotiv

/-- The `BCIConfig` of `emotiv_control.py` (client credentials and profile
name are opaque to the control logic and omitted). -/
structure BCIConfig where
  command_threshold : ℚ := 1/2
deriving DecidableEq, Repr

/-- One mental-command event as received from the `com` stream:
a dict that may carry a `command` field and a `power` field.
`none` at the outer level models a falsy (`None` or empty) event. -/
structure MentalCommandData where
  command : Option String
  power : Option ℚ
deriving DecidableEq, Repr

/-- Method `process_mental_commands`: returns immediately on a falsy event;
otherwise reads `command` and `power` (the latter defaulting to `0`
when absent) and runs `move_forward` exactly when the command is
`push` and the power reaches `command_threshold`. -/
def process_mental_commands (cfg : BCIConfig) (rcfg : RobotConfig)
    (mental_command_data : Option MentalCommandData) : List Dispatch :=
  match mental_command_data with
  | none => []
  | some data =>
    let command := data.command
    let power := (data.power).getD 0
    if command = some "push" ∧ cfg.command_threshold ≤ power then
      move_forward rcfg
    else []

end Emotiv

/-! Theorems about the claims. -/

/-- Claim C1: in a cycle whose decision score `s` was computed
(a nonempty window scored successfully, resp. a truthy push event with
power `s`), `s ≥ commandThreshold` dispatches exactly the move command
followed by the stop command, and `s < commandThreshold` dispatches
nothing. -/
theorem C1_threshold_dispatch (cfg : Brainflow.BCIConfig) (ecfg : Emotiv.BCIConfig)
    (rcfg : RobotConfig) (s : ℚ) :
    (cfg.command_threshold ≤ s →
      Brainflow.cycle_dispatches cfg rcfg (Brainflow.PollResult.window (Except.ok s)) =
        [Dispatch.move rcfg.move_speed 0 0, Dispatch.move 0 0 0]) ∧
    (s < cfg.command_threshold →
      Brainflow.cycle_dispatches cfg rcfg (Brainflow.PollResult.window (Except.ok s)) = []) ∧
    (ecfg.command_threshold ≤ s →
      Emotiv.process_mental_commands ecfg rcfg (some ⟨some "push", some s⟩) =
        [Dispatch.move rcfg.move_speed 0 0, Dispatch.move 0 0 0]) ∧
    (s < ecfg.command_threshold →
      Emotiv.process_mental_commands ecfg rcfg (some ⟨some "push", some s⟩) = []) := by
  refine ⟨fun h => ?_, fun h => ?_, fun h => ?_, fun h => ?_⟩
  · simp [Brainflow.cycle_dispatches, Brainflow.process_brain_data, move_forward, h]
  · simp [Brainflow.cycle_dispatches, Brainflow.process_brain_data, move_forward,
      not_le.mpr h]
  · simp [Emotiv.process_mental_commands, move_forward, h]
  · simp [Emotiv.process_mental_commands, move_forward, not_le.mpr h]

/-- Witness for C1 at threshold 0.6 with scores 0.7 and 0.1. -/
theorem C1_threshold_dispatch_witness :
    (Brainflow.main_bci_config.command_threshold ≤ 7/10 ∧
      Brainflow.cycle_dispatches Brainflow.main_bci_config Brainflow.main_robot_config
        (Brainflow.PollResult.window (Except.ok (7/10))) =
        [Dispatch.move Brainflow.main_robot_config.move_speed 0 0, Dispatch.move 0 0 0]) ∧
    ((1/10 : ℚ) < Brainflow.main_bci_config.command_threshold ∧
      Brainflow.cycle_dispatches Brainflow.main_bci_config Brainflow.main_robot_config
        (Brainflow.PollResult.window (Except.ok (1/10))) = []) := by
  have h1 : Brainflow.main_bci_config.command_threshold ≤ (7/10 : ℚ) := by
    norm_num [Brainflow.main_bci_config]
  have h2 : (1/10 : ℚ) < Brainflow.main_bci_config.command_threshold := by
    norm_num [Brainflow.main_bci_config]
  exact ⟨⟨h1, (C1_threshold_dispatch _ ⟨1/2⟩ _ _).1 h1⟩,
         ⟨h2, (C1_threshold_dispatch _ ⟨1/2⟩ _ _).2.1 h2⟩⟩

/-- Claim C8, Scenario A: with `commandThreshold = 0.6` and polled
score sequence `[0.2, 0.3, 0.7, 0.1]`, the loop dispatches exactly one
move+stop pair over the whole run, and per cycle the dispatches are
empty, empty, the pair, empty — the trigger is the third poll. -/
theorem C8_scenario_a :
    (Brainflow.run_loop Brainflow.main_bci_config Brainflow.main_robot_config
      [Brainflow.PollResult.window (Except.ok (2/10)),
       Brainflow.PollResult.window (Except.ok (3/10)),
       Brainflow.PollResult.window (Except.ok (7/10)),
       Brainflow.PollResult.window (Except.ok (1/10))]).1 =
      [Dispatch.move (1/2) 0 0, Dispatch.move 0 0 0] ∧
    [Brainflow.PollResult.window (Except.ok (2/10)),
     Brainflow.PollResult.window (Except.ok (3/10)),
     Brainflow.PollResult.window (Except.ok (7/10)),
     Brainflow.PollResult.window (Except.ok (1/10))].map
      (Brainflow.cycle_dispatches Brainflow.main_bci_config Brainflow.main_robot_config) =
      [[], [], [Dispatch.move (1/2) 0 0, Dispatch.move 0 0 0], []] := by
  constructor <;>
    norm_num [Brainflow.run_loop, Brainflow.cycle_dispatches, Brainflow.process_brain_data,
      Brainflow.main_bci_config, Brainflow.main_robot_config, move_forward]

/-- Claim C9: an error in the scoring pipeline makes
`process_brain_data` return `0.0`, and with a positive threshold such
a cycle dispatches no command. -/
theorem C9_score_error_yields_zero (cfg : Brainflow.BCIConfig) (rcfg : RobotConfig)
    (h : 0 < cfg.command_threshold) :
    Brainflow.process_brain_data (Except.error ()) = 0 ∧
    Brainflow.cycle_dispatches cfg rcfg
      (Brainflow.PollResult.window (Except.error ())) = [] := by
  refine ⟨rfl, ?_⟩
  simp [Brainflow.cycle_dispatches, Brainflow.process_brain_data, not_le.mpr h]

/-- Witness for C9 at threshold 0.6. -/
theorem C9_score_error_yields_zero_witness :
    (0 : ℚ) < Brainflow.main_bci_config.command_threshold ∧
    (Brainflow.process_brain_data (Except.error ()) = 0 ∧
      Brainflow.cycle_dispatches Brainflow.main_bci_config Brainflow.main_robot_config
        (Brainflow.PollResult.window (Except.error ())) = []) := by
  have h : (0 : ℚ) < Brainflow.main_bci_config.command_threshold := by
    norm_num [Brainflow.main_bci_config]
  exact ⟨h, C9_score_error_yields_zero _ _ h⟩

/-- Refuting claim C5 as stated: after a poll error the loop does not
continue — here a qualifying window follows a raising poll call and
nothing at all is dispatched, while the same window alone would
dispatch the move+stop pair. -/
theorem C5_counterexample :
    (Brainflow.run_loop Brainflow.main_bci_config Brainflow.main_robot_config
      [Brainflow.PollResult.pollError,
       Brainflow.PollResult.window (Except.ok (9/10))]).1 = [] ∧
    (Brainflow.run_loop Brainflow.main_bci_config Brainflow.main_robot_config
      [Brainflow.PollResult.pollError,
       Brainflow.PollResult.window (Except.ok (9/10))]).2 = true ∧
    (Brainflow.run_loop Brainflow.main_bci_config Brainflow.main_robot_config
      [Brainflow.PollResult.window (Except.ok (9/10))]).1 =
      [Dispatch.move (1/2) 0 0, Dispatch.move 0 0 0] := by
  refine ⟨rfl, rfl, ?_⟩
  norm_num [Brainflow.run_loop, Brainflow.cycle_dispatches, Brainflow.process_brain_data,
    Brainflow.main_bci_config, Brainflow.main_robot_config, move_forward]

/-- Claim C5 as amended: a score-computation error is absorbed
(`process_brain_data` returns `0.0`) and the loop continues with the
remaining polls, but a raising poll call escapes to the handler in `run`
and terminates the loop. -/
theorem C5_amended_error_policy (cfg : Brainflow.BCIConfig) (rcfg : RobotConfig)
    (ps : List Brainflow.PollResult) :
    Brainflow.process_brain_data (Except.error ()) = 0 ∧
    Brainflow.run_loop cfg rcfg (Brainflow.PollResult.window (Except.error ()) :: ps) =
      (Brainflow.cycle_dispatches cfg rcfg (Brainflow.PollResult.window (Except.error ())) ++
        (Brainflow.run_loop cfg rcfg ps).1,
       (Brainflow.run_loop cfg rcfg ps).2) ∧
    Brainflow.run_loop cfg rcfg (Brainflow.PollResult.pollError :: ps) = ([], true) := by
  exact ⟨rfl, rfl, rfl⟩

/-- Refuting claim C2 as stated: with all resources acquired, a
failure of the first teardown call (`stop_stream`) escapes `cleanup`
and the remaining steps — session release, model release and the
robot disconnect — are never attempted. -/
theorem C2_counterexample :
    (Brainflow.cleanup ⟨true, false, false, false⟩ ⟨true, true, true, true⟩).raised = true ∧
    Brainflow.CleanupStep.release_session ∉
      (Brainflow.cleanup ⟨true, false, false, false⟩ ⟨true, true, true, true⟩).steps ∧
    Brainflow.CleanupStep.model_release ∉
      (Brainflow.cleanup ⟨true, false, false, false⟩ ⟨true, true, true, true⟩).steps ∧
    Brainflow.CleanupStep.disconnect ∉
      (Brainflow.cleanup ⟨true, false, false, false⟩ ⟨true, true, true, true⟩).steps := by
  decide

/-- Claim C2 as amended: `cleanup` is not best-effort — it attempts
the applicable teardown calls in source order only up to and including
the first failing one, and it raises to its caller exactly when some
applicable call fails. -/
theorem C2_amended_cleanup_short_circuits :
    ∀ (env : Brainflow.CleanupEnv) (st : Brainflow.ControllerState),
      (Brainflow.cleanup env st).steps =
        (Brainflow.applicable_steps st).takeWhile
          (fun s => ! Brainflow.step_fails env s) ++
        ((Brainflow.applicable_steps st).dropWhile
          (fun s => ! Brainflow.step_fails env s)).take 1 ∧
      (Brainflow.cleanup env st).raised =
        (Brainflow.applicable_steps st).any (Brainflow.step_fails env) := by
  decide

/-- Refuting claim C4 as stated: in a fully set-up controller the
actual teardown order is stop_stream, release_session (closing the
session), model_release (releasing the feature extractor), disconnect
— the session is closed strictly before the feature extractor is
released, not after as claimed. -/
theorem C4_counterexample :
    (Brainflow.cleanup ⟨false, false, false, false⟩ ⟨true, true, true, true⟩).steps =
      [Brainflow.CleanupStep.stop_stream, Brainflow.CleanupStep.release_session,
       Brainflow.CleanupStep.model_release, Brainflow.CleanupStep.disconnect] ∧
    (Brainflow.cleanup ⟨false, false, false, false⟩ ⟨true, true, true, true⟩).steps.indexOf
        Brainflow.CleanupStep.release_session <
      (Brainflow.cleanup ⟨false, false, false, false⟩ ⟨true, true, true, true⟩).steps.indexOf
        Brainflow.CleanupStep.model_release := by
  decide

/-- Claim C4 as amended: when no teardown call fails, `cleanup`
releases the acquired resources in the order stop streaming, then
close the session (`release_session`), then release the feature
extractor (`concentration_model.release`), then disconnect the robot
connection. -/
theorem C4_amended_cleanup_order :
    ∀ (env : Brainflow.CleanupEnv) (st : Brainflow.ControllerState),
      (Brainflow.cleanup env st).raised = false →
      (Brainflow.cleanup env st).steps =
        (if st.board then
          [Brainflow.CleanupStep.stop_stream, Brainflow.CleanupStep.release_session]
         else []) ++
        (if st.concentration_model then [Brainflow.CleanupStep.model_release] else []) ++
        (if st.robot_conn then [Brainflow.CleanupStep.disconnect] else []) := by
  decide

/-- Witness for the amended C4 on a fully set-up controller with a
non-failing environment. -/
theorem C4_amended_cleanup_order_witness :
    (Brainflow.cleanup ⟨false, false, false, false⟩ ⟨true, true, true, true⟩).raised = false ∧
    (Brainflow.cleanup ⟨false, false, false, false⟩ ⟨true, true, true, true⟩).steps =
      [Brainflow.CleanupStep.stop_stream, Brainflow.CleanupStep.release_session,
       Brainflow.CleanupStep.model_release, Brainflow.CleanupStep.disconnect] := by
  refine ⟨by decide, ?_⟩
  have h := C4_amended_cleanup_order ⟨false, false, false, false⟩ ⟨true, true, true, true⟩
    (by decide)
  simpa using h

/-- The all-succeeding run environment: both setups succeed, no polls
arrive before the external stop, no interrupt, no teardown failure. -/
def env_ok : Brainflow.RunEnv :=
  { bci := ⟨false, false, false⟩
    robot := ⟨false, false⟩
    polls := []
    interrupt := false
    cleanupEnv := ⟨false, false, false, false⟩ }

/-- Refuting claim C3 as stated: even on a plain normal run, `cleanup`
is not invoked exactly once — the `finally` block of `run` invokes it
and then the `finally` block of `main` invokes it a second time. -/
theorem C3_counterexample :
    (Brainflow.main env_ok).cleanup_calls = 2 ∧ (Brainflow.main env_ok).cleanup_calls ≠ 1 := by
  decide

/-- Every `run` performs exactly one `cleanup` invocation, in its
`finally` block. -/
theorem run_invokes_cleanup_once (cfg : Brainflow.BCIConfig) (rcfg : RobotConfig)
    (env : Brainflow.RunEnv) (st : Brainflow.ControllerState) :
    (Brainflow.run cfg rcfg env st).cleanup_calls = 1 := by
  unfold Brainflow.run
  by_cases h1 : (Brainflow.setup_bci env.bci st).2 <;>
    by_cases h2 : (Brainflow.setup_robot env.robot (Brainflow.setup_bci env.bci st).1).2.2 <;>
    simp [h1, h2]

/-- Claim C3 as amended: on every exit path (normal stop, setup
failure, mid-loop fatal error, external interrupt), `main` invokes
`cleanup` exactly twice — once from the `finally` block of `run` and once more
from its own `finally`. -/
theorem C3_amended_cleanup_invoked_twice (env : Brainflow.RunEnv) :
    (Brainflow.main env).cleanup_calls = 2 := by
  simp [Brainflow.main, run_invokes_cleanup_once]

/-- A run environment whose BCI setup fails at `prepare_session`,
with no teardown failure. -/
def env_setup_fail : Brainflow.RunEnv :=
  { bci := ⟨true, false, false⟩
    robot := ⟨false, false⟩
    polls := []
    interrupt := false
    cleanupEnv := ⟨false, false, false, false⟩ }

/-- Refuting claim C6 as stated: when `prepare_session` fails, the
failure is caught and logged inside `run`, so `main` terminates
normally — the setup failure is not surfaced to the caller as the
terminal error of the run (no non-zero-equivalent outcome). -/
theorem C6_counterexample :
    (Brainflow.main env_setup_fail).exit = Brainflow.RunExit.normal ∧
    Brainflow.RunExit.normal ≠ Brainflow.RunExit.error := by
  decide

/-- Claim C6 as amended: if any setup call fails (and teardown itself
does not fail), no command at all is dispatched to the robot, the
teardown of the opened session is still performed (`stop_stream` and
`release_session` are attempted by the cleanup inside `run`), cleanup runs
twice as always, and the run terminates normally — the failure is
absorbed by the exception handler of `run` instead of being surfaced. -/
theorem C6_amended_setup_failure (env : Brainflow.RunEnv)
    (hfail : env.bci.prepare_session_fails = true ∨ env.bci.start_stream_fails = true ∨
             env.bci.model_prepare_fails = true ∨ env.robot.connect_fails = true ∨
             env.robot.set_mode_fails = true)
    (hclean : env.cleanupEnv = ⟨false, false, false, false⟩) :
    (Brainflow.main env).dispatches = [] ∧
    (Brainflow.main env).exit = Brainflow.RunExit.normal ∧
    Brainflow.CleanupStep.stop_stream ∈ (Brainflow.main env).first_cleanup_steps ∧
    Brainflow.CleanupStep.release_session ∈ (Brainflow.main env).first_cleanup_steps ∧
    (Brainflow.main env).cleanup_calls = 2 := by
  rcases env with ⟨⟨b1, b2, b3⟩, ⟨r1, r2⟩, polls, intr, cenv⟩
  subst hclean
  cases b1 <;> cases b2 <;> cases b3 <;> cases r1 <;> cases r2 <;>
    simp_all [Brainflow.main, Brainflow.run, Brainflow.setup_bci, Brainflow.setup_robot,
      Brainflow.cleanup, Brainflow.initial_state]

/-- Witness for the amended C6 in the environment where
`prepare_session` fails. -/
theorem C6_amended_setup_failure_witness :
    env_setup_fail.bci.prepare_session_fails = true ∧
    env_setup_fail.cleanupEnv = ⟨false, false, false, false⟩ ∧
    ((Brainflow.main env_setup_fail).dispatches = [] ∧
     (Brainflow.main env_setup_fail).exit = Brainflow.RunExit.normal ∧
     Brainflow.CleanupStep.stop_stream ∈ (Brainflow.main env_setup_fail).first_cleanup_steps ∧
     Brainflow.CleanupStep.release_session ∈
       (Brainflow.main env_setup_fail).first_cleanup_steps ∧
     (Brainflow.main env_setup_fail).cleanup_calls = 2) :=
  ⟨rfl, rfl, C6_amended_setup_failure env_setup_fail (Or.inl rfl) rfl⟩

/-- Dispatch lists that are a concatenation of the move+stop pairs
emitted by `move_forward`: each forward move request is immediately
followed by its zero-velocity stop request, with nothing in between
and no other kind of command. -/
inductive PairedMoves (rcfg : RobotConfig) : List Dispatch → Prop
  | nil : PairedMoves rcfg []
  | pair (rest : List Dispatch) (h : PairedMoves rcfg rest) :
      PairedMoves rcfg
        (Dispatch.move rcfg.move_speed 0 0 :: Dispatch.move 0 0 0 :: rest)

/-- A paired-moves list contains no mode-switch command. -/
theorem PairedMoves.no_setMode {rcfg : RobotConfig} {l : List Dispatch}
    (h : PairedMoves rcfg l) (m : String) : Dispatch.setMode m ∉ l := by
  induction h with
  | nil => simp
  | pair rest _ ih => simp [ih]

/-- Everything the control loop dispatches consists of properly paired
move+stop requests. -/
theorem run_loop_paired (cfg : Brainflow.BCIConfig) (rcfg : RobotConfig) :
    ∀ ps : List Brainflow.PollResult, PairedMoves rcfg (Brainflow.run_loop cfg rcfg ps).1
  | [] => PairedMoves.nil
  | Brainflow.PollResult.pollError :: _ => PairedMoves.nil
  | Brainflow.PollResult.empty :: ps => run_loop_paired cfg rcfg ps
  | Brainflow.PollResult.window sc :: ps => by
    have ih := run_loop_paired cfg rcfg ps
    show PairedMoves rcfg
      (Brainflow.cycle_dispatches cfg rcfg (Brainflow.PollResult.window sc) ++
        (Brainflow.run_loop cfg rcfg ps).1)
    simp only [Brainflow.cycle_dispatches]
    split
    · exact PairedMoves.pair _ ih
    · simpa using ih

/-- Claim C7: on a run whose setup succeeds, the motion mode is set
exactly once, it is the very first command dispatched on the robot
connection (hence strictly precedes the first movement), and the rest
of the dispatch trace consists of move+stop pairs in which each move
is immediately followed by its paired stop with no intervening
command on the connection. -/
theorem C7_mode_once_then_paired_moves (cfg : Brainflow.BCIConfig) (rcfg : RobotConfig)
    (env : Brainflow.RunEnv)
    (h1 : env.bci.prepare_session_fails = false ∧ env.bci.start_stream_fails = false ∧
          env.bci.model_prepare_fails = false)
    (h2 : env.robot.connect_fails = false ∧ env.robot.set_mode_fails = false) :
    (Brainflow.run cfg rcfg env Brainflow.initial_state).dispatches.count
        (Dispatch.setMode "normal") = 1 ∧
    (Brainflow.run cfg rcfg env Brainflow.initial_state).dispatches.head? =
      some (Dispatch.setMode "normal") ∧
    PairedMoves rcfg (Brainflow.run cfg rcfg env Brainflow.initial_state).dispatches.tail := by
  obtain ⟨hb1, hb2, hb3⟩ := h1
  obtain ⟨hr1, hr2⟩ := h2
  have hds : (Brainflow.run cfg rcfg env Brainflow.initial_state).dispatches =
      Dispatch.setMode "normal" :: (Brainflow.run_loop cfg rcfg env.polls).1 := by
    simp [Brainflow.run, Brainflow.setup_bci, Brainflow.setup_robot, Brainflow.initial_state,
      hb1, hb2, hb3, hr1, hr2]
  have hp := run_loop_paired cfg rcfg env.polls
  refine ⟨?_, ?_, ?_⟩
  · rw [hds]
    simp [List.count_cons, List.count_eq_zero.mpr (PairedMoves.no_setMode hp "normal")]
  · rw [hds]
    rfl
  · rw [hds]
    exact hp

/-- A run environment with successful setup and a single qualifying
window. -/
def env_one_trigger : Brainflow.RunEnv :=
  { bci := ⟨false, false, false⟩
    robot := ⟨false, false⟩
    polls := [Brainflow.PollResult.window (Except.ok (7/10))]
    interrupt := false
    cleanupEnv := ⟨false, false, false, false⟩ }

/-- Witness for C7 on a run with one triggered move. -/
theorem C7_mode_once_then_paired_moves_witness :
    (env_one_trigger.bci.prepare_session_fails = false ∧
     env_one_trigger.bci.start_stream_fails = false ∧
     env_one_trigger.bci.model_prepare_fails = false) ∧
    (env_one_trigger.robot.connect_fails = false ∧
     env_one_trigger.robot.set_mode_fails = false) ∧
    ((Brainflow.run Brainflow.main_bci_config Brainflow.main_robot_config env_one_trigger
        Brainflow.initial_state).dispatches.count (Dispatch.setMode "normal") = 1 ∧
     (Brainflow.run Brainflow.main_bci_config Brainflow.main_robot_config env_one_trigger
        Brainflow.initial_state).dispatches.head? = some (Dispatch.setMode "normal") ∧
     PairedMoves Brainflow.main_robot_config
       (Brainflow.run Brainflow.main_bci_config Brainflow.main_robot_config env_one_trigger
          Brainflow.initial_state).dispatches.tail) :=
  ⟨⟨rfl, rfl, rfl⟩, ⟨rfl, rfl⟩,
    C7_mode_once_then_paired_moves Brainflow.main_bci_config Brainflow.main_robot_config
      env_one_trigger ⟨rfl, rfl, rfl⟩ ⟨rfl, rfl⟩⟩

/-- Claim C10: the event-driven controller dispatches a movement
exactly for a truthy event whose `command` is `push` and whose
power (defaulting to `0` when the field is absent) reaches
`commandThreshold`; a falsy event, an event with any other command,
and — whenever the threshold is positive — an event lacking the power
field all dispatch nothing. -/
theorem C10_push_event_policy (cfg : Emotiv.BCIConfig) (rcfg : RobotConfig) :
    Emotiv.process_mental_commands cfg rcfg none = [] ∧
    (∀ d : Emotiv.MentalCommandData,
      d.command = some "push" → cfg.command_threshold ≤ (d.power).getD 0 →
        Emotiv.process_mental_commands cfg rcfg (some d) =
          [Dispatch.move rcfg.move_speed 0 0, Dispatch.move 0 0 0]) ∧
    (∀ d : Emotiv.MentalCommandData,
      Emotiv.process_mental_commands cfg rcfg (some d) ≠ [] ↔
        d.command = some "push" ∧ cfg.command_threshold ≤ (d.power).getD 0) ∧
    (∀ d : Emotiv.MentalCommandData, d.command ≠ some "push" →
        Emotiv.process_mental_commands cfg rcfg (some d) = []) ∧
    (∀ d : Emotiv.MentalCommandData, d.power = none → 0 < cfg.command_threshold →
        Emotiv.process_mental_commands cfg rcfg (some d) = []) := by
  refine ⟨rfl, fun d hc hp => ?_, fun d => ?_, fun d hc => ?_, fun d hp ht => ?_⟩
  · simp [Emotiv.process_mental_commands, move_forward, hc, hp]
  · constructor
    · intro hne
      by_contra hcp
      apply hne
      simp only [Emotiv.process_mental_commands]
      rw [if_neg hcp]
    · rintro ⟨hc, hp⟩
      simp [Emotiv.process_mental_commands, move_forward, hc, hp]
  · simp [Emotiv.process_mental_commands, hc]
  · simp [Emotiv.process_mental_commands, hp, not_le.mpr ht]

/-- Witness for C10: a push event at power 0.7 against threshold 0.5
triggers the pair; a push event lacking the power field does not. -/
theorem C10_push_event_policy_witness :
    ((Emotiv.MentalCommandData.mk (some "push") (some (7/10))).command = some "push" ∧
      (Emotiv.BCIConfig.mk (1/2)).command_threshold ≤
        ((Emotiv.MentalCommandData.mk (some "push") (some (7/10))).power).getD 0 ∧
      Emotiv.process_mental_commands ⟨1/2⟩ Brainflow.main_robot_config
        (some ⟨some "push", some (7/10)⟩) =
        [Dispatch.move Brainflow.main_robot_config.move_speed 0 0, Dispatch.move 0 0 0]) ∧
    ((Emotiv.MentalCommandData.mk (some "push") none).power = none ∧
      (0 : ℚ) < (Emotiv.BCIConfig.mk (1/2)).command_threshold ∧
      Emotiv.process_mental_commands ⟨1/2⟩ Brainflow.main_robot_config
        (some ⟨some "push", none⟩) = []) := by
  have hp : (Emotiv.BCIConfig.mk (1/2)).command_threshold ≤
      ((Emotiv.MentalCommandData.mk (some "push") (some (7/10))).power).getD 0 := by
    norm_num
  have ht : (0 : ℚ) < (Emotiv.BCIConfig.mk (1/2)).command_threshold := by norm_num
  exact ⟨⟨rfl, hp, (C10_push_event_policy ⟨1/2⟩ Brainflow.main_robot_config).2.1 _ rfl hp⟩,
         ⟨rfl, ht, (C10_push_event_policy ⟨1/2⟩ Brainflow.main_robot_config).2.2.2.2 _ rfl ht⟩⟩

end Go2BCI
